import Mathlib

/-!
Shallow embedding of the wellness analysis core of `src/app.py` (iBloom):

* `analyze_responses` (source lines 301-402) together with its helper
  `generate_summary` (lines 404-411);
* `calculate_check_in_streak` (lines 823-852), with the database fetch
  externalized: the function receives the list of submission dates (as day
  numbers in `ℤ`) and the current date;
* `analyze_wellness_trend` (lines 854-872), receiving the stored
  `burnout_score` column values (`Option ℚ`, since the column is nullable and
  the source reads `r.burnout_score or 0`).

Python floats are modelled as exact rationals (`ℚ`); `round(x, 1)` is modelled
as round-half-to-even on rationals (`round1`).  Python exceptions are modelled
with `Except Unit`: the `try/except` wrapper of `analyze_responses` becomes a
total function that returns `fallbackAnalysis` on an error value.
-/

/-- A JSON answer value as the scorer sees it: a number or a string.
`none` at a position models both a `null` entry and a missing trailing
answer (`responses[i] if i < len(responses) else None`). -/
inductive Answer
  | num (v : ℚ)
  | str (s : String)
deriving DecidableEq

/-- A question record; the scorer reads the `type` and `category` string
fields (source lines 309-325). -/
structure Question where
  type : String
  category : String
deriving DecidableEq

/-- A recommendation dict: either a (type, action) record or the
(type, title) shape used by the "module" entry of the medium tier. -/
inductive RecEntry
  | mkAction (rtype act : String)
  | mkModule (rtype title : String)
deriving DecidableEq

/-- The analysis dict built at source lines 380-386. -/
structure AnalysisResult where
  score : ℚ
  urgency : String
  concerns : List String
  recommendations : List RecEntry
  summary : String
deriving DecidableEq

/-- `startsWithL s pat` : the char list `s` starts with `pat`. -/
def startsWithL : List Char → List Char → Bool
  | _, [] => true
  | [], _ :: _ => false
  | a :: as, b :: bs => a == b && startsWithL as bs

/-- `containsSubL s pat` : `pat` occurs as a contiguous sublist of `s`. -/
def containsSubL : List Char → List Char → Bool
  | [], pat => startsWithL [] pat
  | a :: t, pat => startsWithL (a :: t) pat || containsSubL t pat

/-- The Python string operator `in`: contiguous substring containment. -/
def containsSub (s pat : String) : Bool :=
  containsSubL s.toList pat.toList

/-- Evaluate a digit list (most significant first) to a natural number. -/
def digitsToNat : List Char → ℕ → ℕ
  | [], acc => acc
  | c :: cs, acc => digitsToNat cs (acc * 10 + (c.toNat - 48))

/-- Strip leading and trailing whitespace from a char list. -/
def trimL (cs : List Char) : List Char :=
  ((cs.dropWhile fun c => c.isWhitespace).reverse.dropWhile
    fun c => c.isWhitespace).reverse

/-- Models Python `float()` applied to a string: optional sign, decimal
digits, optional fractional part (surrounding whitespace stripped).  Returns
`none` exactly when Python would raise `ValueError`.  Exotic accepted forms
(`inf`, `nan`, exponents) are not modelled; no claim depends on them. -/
def parseFloatQ (s : String) : Option ℚ :=
  let cs := trimL s.data
  let (sign, body) :=
    match cs with
    | '-' :: rest => ((-1 : ℚ), rest)
    | '+' :: rest => ((1 : ℚ), rest)
    | _ => ((1 : ℚ), cs)
  let intPart := body.takeWhile fun c => c.isDigit
  let rest := body.dropWhile fun c => c.isDigit
  match rest with
  | [] =>
    if intPart.isEmpty then none
    else some (sign * (digitsToNat intPart 0 : ℚ))
  | '.' :: frac =>
    if frac.all (fun c => c.isDigit) && !(intPart.isEmpty && frac.isEmpty) then
      some (sign * ((digitsToNat intPart 0 : ℚ)
        + (digitsToNat frac 0 : ℚ) / (10 : ℚ) ^ frac.length))
    else none
  | _ => none

/-- `float(response)` on an answer value (source line 313); a string that is
not a numeric literal raises, modelled as `Except.error ()`. -/
def pyFloat : Answer → Except Unit ℚ
  | .num v => .ok v
  | .str s =>
    match parseFloatQ s with
    | some v => .ok v
    | none => .error ()

/-- Python truthiness of an answer value (the `and response` guard at
source line 327). -/
def pyTruthy : Answer → Bool
  | .num v => v != 0
  | .str s => s != ""

/-- `s.lower()` on a string: lower-case every character. -/
def lowerStr (s : String) : String := ⟨s.data.map Char.toLower⟩

/-- `response.lower()` (source line 331); calling it on a number raises
`AttributeError`, modelled as `Except.error ()`. -/
def pyLower : Answer → Except Unit String
  | .num _ => .error ()
  | .str s => .ok (lowerStr s)

/-- The keyword lexicon of source lines 329-330. -/
def stressKeywords : List String :=
  ["overwhelmed", "stressed", "tired", "burned", "exhausted",
   "pressure", "deadline", "too much", "can\x27t cope"]

/-- The lexicon phrases found in an (already lower-cased) text answer, in
lexicon order — one entry per phrase, mirroring the `for keyword in
stress_keywords` loop at source lines 333-336. -/
def foundKeywords (sLower : String) : List String :=
  stressKeywords.filter fun k => containsSub sLower k

/-- Per-question contribution of a parsed scale value (source lines 316-325).
The source distinguishes the category list energy/satisfaction/balance from
the general case, with identical bodies; both branches are kept. -/
def scaleContribution (category : String) (v : ℚ) : ℚ :=
  if category ∈ ["stress"] then v * 10
  else if category ∈ ["energy", "satisfaction", "balance"] then (11 - v) * 10
  else (11 - v) * 10

/-- One iteration of the scoring loop (source lines 309-336) for a single
question and its (optional) answer: yields the increments to
`(total_score, scale_count, stress_factors)`, or an error when the Python
body would raise. -/
def questionStep (q : Question) (r : Option Answer) :
    Except Unit (ℚ × ℕ × List String) :=
  if q.type = "scale" then
    match r with
    | some a =>
      match pyFloat a with
      | .ok v => .ok (scaleContribution q.category v, 1, [])
      | .error e => .error e
    | none => .ok (0, 0, [])
  else if q.type = "text" then
    match r with
    | some a =>
      if pyTruthy a then
        match pyLower a with
        | .ok sl =>
          let hits := foundKeywords sl
          .ok ((15 : ℚ) * hits.length, 0,
            hits.map fun k => "Mentioned feeling " ++ k)
        | .error e => .error e
      else .ok (0, 0, [])
    | none => .ok (0, 0, [])
  else .ok (0, 0, [])

/-- The scoring loop of `analyze_responses` (source lines 305-336):
accumulates `total_score`, `scale_count` and `stress_factors` over the
question list; `responses[i] if i < len(responses) else None` becomes
`rs.headD none` / `rs.tail`. -/
def scoreLoop : List Question → List (Option Answer) →
    Except Unit (ℚ × ℕ × List String)
  | [], _ => .ok (0, 0, [])
  | q :: qs, rs =>
    match questionStep q (rs.headD none) with
    | .error e => .error e
    | .ok (t1, c1, f1) =>
      match scoreLoop qs rs.tail with
      | .error e => .error e
      | .ok (t2, c2, f2) => .ok (t1 + t2, c1 + c2, f1 ++ f2)

/-- Round half to even to the nearest integer, the tie rule of the Python
builtin `round` (on exact decimal values). -/
def rnd (q : ℚ) : ℤ :=
  if q - ⌊q⌋ < 1 / 2 then ⌊q⌋
  else if 1 / 2 < q - ⌊q⌋ then ⌊q⌋ + 1
  else if ⌊q⌋ % 2 = 0 then ⌊q⌋ else ⌊q⌋ + 1

/-- Python `round(x, 1)` (source line 381), on exact rationals. -/
def round1 (x : ℚ) : ℚ := (rnd (10 * x) : ℚ) / 10

/-- `generate_summary` (source lines 404-411); only `score` is read. -/
def generate_summary (score : ℚ) (_concerns : List String)
    (_urgency : String) : String :=
  if score ≥ 70 then
    "Your responses indicate high stress levels. It\x27s important to take immediate action to prevent burnout. Consider reaching out for support."
  else if score ≥ 40 then
    "Your wellbeing shows some areas of concern. Taking proactive steps now can help prevent more serious issues."
  else
    "You\x27re managing well overall! Keep up the good habits and continue monitoring your wellbeing."

/-- High-tier base concerns (source line 357). -/
def highConcerns : List String :=
  ["High stress levels detected", "Risk of burnout"]

/-- High-tier recommendations (source lines 358-362). -/
def highRecs : List RecEntry :=
  [.mkAction "immediate" "Take a break and practice deep breathing",
   .mkAction "urgent" "Consider speaking with a manager about workload",
   .mkAction "support" "Reach out to employee assistance program"]

/-- Medium-tier base concerns (source line 364). -/
def mediumConcerns : List String := ["Moderate stress levels"]

/-- Medium-tier recommendations (source lines 365-369). -/
def mediumRecs : List RecEntry :=
  [.mkAction "immediate" "Take a 10-minute mindfulness break",
   .mkAction "preventive" "Schedule regular breaks throughout the day",
   .mkModule "module" "Stress management techniques"]

/-- Low-tier recommendations (source lines 371-375). -/
def lowRecs : List RecEntry :=
  [.mkAction "maintenance" "Keep up the good work!",
   .mkAction "preventive" "Continue daily check-ins",
   .mkAction "growth" "Share wellness tips with colleagues"]

/-- The body of `analyze_responses` inside its `try` (source lines 303-388);
an `error` value marks any point where the Python body would raise. -/
def analyzeBody (questions : List Question) (responses : List (Option Answer)) :
    Except Unit AnalysisResult :=
  match scoreLoop questions responses with
  | .error e => .error e
  | .ok (total, scaleCount, stressFactors) =>
    let burnoutScore : ℚ :=
      if scaleCount > 0 then min 100 (total / (scaleCount : ℚ)) else 50
    let urgency : String :=
      if burnoutScore ≥ 70 then "high"
      else if burnoutScore ≥ 40 then "medium" else "low"
    let baseConcerns : List String :=
      if burnoutScore ≥ 70 then highConcerns
      else if burnoutScore ≥ 40 then mediumConcerns else []
    let recs : List RecEntry :=
      if burnoutScore ≥ 70 then highRecs
      else if burnoutScore ≥ 40 then mediumRecs else lowRecs
    let allConcerns := baseConcerns ++ stressFactors
    .ok { score := round1 burnoutScore
          urgency := urgency
          concerns := allConcerns
          recommendations := recs
          summary := generate_summary burnoutScore allConcerns urgency }

/-- The safe fallback analysis returned by the `except` branch
(source lines 393-402). -/
def fallbackAnalysis : AnalysisResult :=
  { score := 50
    urgency := "medium"
    concerns := ["Unable to complete full analysis"]
    recommendations :=
      [.mkAction "immediate" "Take a moment to reflect on your wellbeing",
       .mkAction "follow-up" "Try completing another check-in tomorrow"]
    summary := "Analysis completed with limited data. Continue daily check-ins for better insights." }

/-- `analyze_responses` (source lines 301-402): the `try` body with the
catch-all `except` producing the fallback result. -/
def analyze_responses (questions : List Question)
    (responses : List (Option Answer)) : AnalysisResult :=
  match analyzeBody questions responses with
  | .ok a => a
  | .error _ => fallbackAnalysis

/-! ## Streak calculator -/

/-- Insert into a descending-sorted list, keeping it descending. -/
def insertDesc (x : ℤ) : List ℤ → List ℤ
  | [] => [x]
  | y :: ys => if y ≤ x then x :: y :: ys else y :: insertDesc x ys

/-- `sort(reverse=True)` on a list of day numbers (source line 835). -/
def sortDesc (l : List ℤ) : List ℤ := l.foldr insertDesc []

/-- The streak loop of source lines 841-846: note the second disjunct
compares against `current_date - timedelta(days=streak)`, with the *running
streak count* as the offset. -/
def streakLoop : List ℤ → ℤ → ℕ → ℕ
  | [], _, streak => streak
  | d :: ds, current, streak =>
    if d = current ∨ d = current - (streak : ℤ) then
      streakLoop ds d (streak + 1)
    else streak

/-- `calculate_check_in_streak` (source lines 823-852) with the database
fetch externalized: `dates` is the list of calendar dates (as day numbers)
carrying at least one response, `today` is `datetime.utcnow().date()`.
`list(set(...))` followed by `sort(reverse=True)` becomes
`sortDesc dates.dedup`. -/
def calculate_check_in_streak (dates : List ℤ) (today : ℤ) : ℕ :=
  if dates = [] then 0
  else streakLoop (sortDesc dates.dedup) today 0

/-! ## Trend classifier -/

/-- Mean burnout score of the first half of the stored history
(source line 861); a `NULL` column value reads as 0 (`r.burnout_score or 0`). -/
def firstHalfAvg (scores : List (Option ℚ)) : ℚ :=
  let mid := scores.length / 2
  ((scores.take mid).map fun r => r.getD 0).sum / (mid : ℚ)

/-- Mean burnout score of the second half of the stored history
(source line 862). -/
def secondHalfAvg (scores : List (Option ℚ)) : ℚ :=
  let mid := scores.length / 2
  ((scores.drop mid).map fun r => r.getD 0).sum / ((scores.length - mid : ℕ) : ℚ)

/-- `analyze_wellness_trend` (source lines 854-872). -/
def analyze_wellness_trend (scores : List (Option ℚ)) : String :=
  if scores.length < 2 then "Not enough data for trend analysis"
  else if secondHalfAvg scores < firstHalfAvg scores - 5 then
    "Significant improvement in wellness"
  else if secondHalfAvg scores < firstHalfAvg scores then
    "Gradual improvement in wellness"
  else if secondHalfAvg scores > firstHalfAvg scores + 5 then
    "Wellness requires attention"
  else "Stable wellness levels"

/-! ## Helper lemmas: sorting and deduplication on already-descending lists -/

theorem insertDesc_of_forall_le (x : ℤ) :
    ∀ l : List ℤ, (∀ y ∈ l, y ≤ x) → insertDesc x l = x :: l
  | [], _ => rfl
  | y :: ys, h => by
    simp only [insertDesc, if_pos (h y (List.mem_cons_self y ys))]

theorem sortDesc_of_sorted :
    ∀ l : List ℤ, l.Pairwise (fun a b => b ≤ a) → sortDesc l = l
  | [], _ => rfl
  | x :: l, h => by
    rcases List.pairwise_cons.mp h with ⟨h1, h2⟩
    show insertDesc x (sortDesc l) = x :: l
    rw [sortDesc_of_sorted l h2, insertDesc_of_forall_le x l h1]

/-- On a strictly descending list, `sortDesc ∘ dedup` is the identity. -/
theorem sortDesc_dedup_of_sorted (l : List ℤ)
    (h : l.Pairwise (fun a b => b < a)) : sortDesc l.dedup = l := by
  have hnd : l.Nodup := h.imp fun hab => (ne_of_gt hab)
  rw [List.dedup_eq_self.mpr hnd]
  exact sortDesc_of_sorted l (h.imp fun hab => le_of_lt hab)

/-- `{today, today-1, ..., today-(n-1)}` : the run of `n` consecutive
calendar days ending today. -/
def consecDates (t : ℤ) : ℕ → List ℤ
  | 0 => []
  | n + 1 => t :: consecDates (t - 1) n

theorem consecDates_mem_le {y t : ℤ} :
    ∀ {n : ℕ}, y ∈ consecDates t n → y ≤ t := by
  intro n
  induction n generalizing t with
  | zero => intro h; simp [consecDates] at h
  | succ m ih =>
    intro h
    rcases List.mem_cons.mp h with h0 | h1
    · exact le_of_eq h0
    · exact le_trans (ih h1) (by omega)

theorem consecDates_sorted (t : ℤ) :
    ∀ n : ℕ, (consecDates t n).Pairwise (fun a b => b < a) := by
  intro n
  induction n generalizing t with
  | zero => exact List.Pairwise.nil
  | succ m ih =>
    refine List.pairwise_cons.mpr ⟨?_, ih (t - 1)⟩
    intro y hy
    have := consecDates_mem_le hy
    omega

/-- C1: the streak examples of the spec against the code.  A lone today
gives 1 and a lone yesterday gives 0 as the spec says, but the three
consecutive days today, today-1, today-2 give 2, not the specified 3: after
the second
match the loop looks for `current_date - timedelta(days=streak)` with the
grown streak count instead of the next consecutive day. -/
theorem streak_spec_examples (t : ℤ) :
    calculate_check_in_streak [t] t = 1 ∧
    calculate_check_in_streak [t - 1] t = 0 ∧
    calculate_check_in_streak [t, t - 1, t - 2] t = 2 := by
  refine ⟨?_, ?_, ?_⟩
  · rw [calculate_check_in_streak, if_neg (by simp),
      sortDesc_dedup_of_sorted [t] (by simp)]
    simp only [streakLoop]
    split_ifs with h1 <;> omega
  · rw [calculate_check_in_streak, if_neg (by simp),
      sortDesc_dedup_of_sorted [t - 1] (by simp)]
    simp only [streakLoop]
    split_ifs with h1 <;> omega
  · rw [calculate_check_in_streak, if_neg (by simp),
      sortDesc_dedup_of_sorted [t, t - 1, t - 2] (by simp)]
    simp only [streakLoop]
    split_ifs with h1 h2 h3 <;> omega

/-- C9: for every n ≥ 2, the streak over the n consecutive calendar days
ending today evaluates to exactly 2: the loop matches today and yesterday,
then compares `today-2` against `current_date - timedelta(days=2) = today-3`
and stops. -/
theorem streak_caps_at_two (t : ℤ) (n : ℕ) (hn : 2 ≤ n) :
    calculate_check_in_streak (consecDates t n) t = 2 := by
  obtain ⟨m, rfl⟩ : ∃ m, n = m + 2 := ⟨n - 2, by omega⟩
  rw [calculate_check_in_streak,
    if_neg (by simp [consecDates]),
    sortDesc_dedup_of_sorted _ (consecDates_sorted t (m + 2))]
  show streakLoop (t :: (t - 1) :: consecDates (t - 1 - 1) m) t 0 = 2
  cases m with
  | zero =>
    simp only [consecDates, streakLoop]
    split_ifs with h1 h2 <;> omega
  | succ k =>
    show streakLoop (t :: (t - 1) :: (t - 1 - 1) :: consecDates (t - 1 - 1 - 1) k) t 0 = 2
    simp only [streakLoop]
    split_ifs with h1 h2 h3 <;> omega

/-- Witness for `streak_caps_at_two` at today = 0, n = 5. -/
theorem streak_caps_at_two_witness :
    calculate_check_in_streak (consecDates 0 5) 0 = 2 :=
  streak_caps_at_two 0 5 (by norm_num)

/-! ## Trend classifier theorems -/

/-- C2 counterexample: at `[90, 85]` the halves average 90 and 85, so
`delta = -5` exactly, yet the classifier answers the middle branch
("Gradual improvement"), not "Significant improvement"; dually at `[85, 90]`
`delta = 5` answers "Stable", not "Wellness requires attention". -/
theorem trend_boundary_counterexample :
    secondHalfAvg [some 90, some 85] - firstHalfAvg [some 90, some 85] = -5 ∧
    analyze_wellness_trend [some 90, some 85] ≠ "Significant improvement in wellness" ∧
    secondHalfAvg [some 85, some 90] - firstHalfAvg [some 85, some 90] = 5 ∧
    analyze_wellness_trend [some 85, some 90] ≠ "Wellness requires attention" := by
  have h1 : secondHalfAvg [some 90, some 85] = 85 := by
    norm_num [secondHalfAvg]
  have h2 : firstHalfAvg [some 90, some 85] = 90 := by
    norm_num [firstHalfAvg]
  have h3 : secondHalfAvg [some 85, some 90] = 90 := by
    norm_num [secondHalfAvg]
  have h4 : firstHalfAvg [some 85, some 90] = 85 := by
    norm_num [firstHalfAvg]
  refine ⟨by rw [h1, h2]; norm_num, ?_, by rw [h3, h4]; norm_num, ?_⟩
  · rw [analyze_wellness_trend, if_neg (by norm_num), if_neg (by rw [h1, h2]; norm_num),
      if_pos (by rw [h1, h2]; norm_num)]
    decide
  · rw [analyze_wellness_trend, if_neg (by norm_num), if_neg (by rw [h3, h4]; norm_num),
      if_neg (by rw [h3, h4]; norm_num), if_neg (by rw [h3, h4]; norm_num)]
    decide

/-- C2 amended: exact boundary values of `delta = second_half_mean -
first_half_mean` are exclusive — the comparisons are strict, so `delta = -5`
falls into the "Gradual improvement" branch and `delta = 5` into the
"Stable" branch (the weaker classification, not the stronger one). -/
theorem trend_boundary_amended (scores : List (Option ℚ))
    (h2 : 2 ≤ scores.length) :
    (secondHalfAvg scores - firstHalfAvg scores = -5 →
      analyze_wellness_trend scores = "Gradual improvement in wellness") ∧
    (secondHalfAvg scores - firstHalfAvg scores = 5 →
      analyze_wellness_trend scores = "Stable wellness levels") := by
  constructor
  · intro hd
    rw [analyze_wellness_trend, if_neg (by omega),
      if_neg (by intro hlt; rw [sub_eq_iff_eq_add] at hd; nlinarith),
      if_pos (by nlinarith)]
  · intro hd
    rw [analyze_wellness_trend, if_neg (by omega),
      if_neg (by nlinarith), if_neg (by nlinarith), if_neg (by nlinarith)]

/-- Witness for `trend_boundary_amended` at the history `[90, 85]`. -/
theorem trend_boundary_amended_witness :
    analyze_wellness_trend [some 90, some 85] = "Gradual improvement in wellness" :=
  (trend_boundary_amended [some 90, some 85] (by norm_num)).1
    (by norm_num [secondHalfAvg, firstHalfAvg])

/-! ## Response scorer theorems -/

theorem round1_intCast (n : ℤ) : round1 (n : ℚ) = n := by
  have h10 : (10 : ℚ) * (n : ℚ) = ((10 * n : ℤ) : ℚ) := by push_cast; ring
  unfold round1 rnd
  rw [h10, Int.floor_intCast, sub_self]
  rw [if_pos (by norm_num : (0 : ℚ) < 1 / 2)]
  push_cast
  ring

theorem round1_fifty : round1 (50 : ℚ) = 50 := by
  rw [show (50 : ℚ) = ((50 : ℤ) : ℚ) by norm_num, round1_intCast]

/-- C4 counterexample: the empty submission evaluates to score 50, which the
threshold of the code itself (`score >= 40`) places in the *medium* tier — urgency
is "medium", not "low", and the recommendations are the medium-tier ones,
not the low-tier defaults. -/
theorem empty_submission_counterexample :
    (analyze_responses [] []).score = 50 ∧
    (analyze_responses [] []).urgency = "medium" ∧
    (analyze_responses [] []).urgency ≠ "low" ∧
    (analyze_responses [] []).recommendations ≠ lowRecs := by
  norm_num [analyze_responses, analyzeBody, scoreLoop, round1_fifty,
    mediumRecs, lowRecs]
  decide

/-- C4 amended: an empty submission yields the neutral score 50 with urgency
"medium", the medium-tier concern list and the medium-tier recommendations. -/
theorem empty_submission_analysis :
    analyze_responses [] [] =
      { score := 50
        urgency := "medium"
        concerns := mediumConcerns
        recommendations := mediumRecs
        summary := "Your wellbeing shows some areas of concern. Taking proactive steps now can help prevent more serious issues." } := by
  norm_num [analyze_responses, analyzeBody, scoreLoop, round1_fifty,
    generate_summary]

/-- Evaluation helper: a single stress-category scale question answered with
the number `v` scores `round1 (min 100 (v * 10))` — the raw `v`, whatever
its range. -/
theorem analyze_single_stress_scale (v : ℚ) :
    (analyze_responses [⟨"scale", "stress"⟩] [some (.num v)]).score =
      round1 (min 100 (v * 10)) := by
  norm_num [analyze_responses, analyzeBody, scoreLoop, questionStep, pyFloat,
    scaleContribution]

theorem round1_neg_fifty : round1 (-50 : ℚ) = -50 := by
  rw [show (-50 : ℚ) = ((-50 : ℤ) : ℚ) by norm_num, round1_intCast]

theorem round1_ten : round1 (10 : ℚ) = 10 := by
  rw [show (10 : ℚ) = ((10 : ℤ) : ℚ) by norm_num, round1_intCast]

/-- C3 counterexample: the out-of-range scale answer `-5` is neither clamped
nor rejected: it is trusted raw and drives the final score to `-50`
(clamping into [1, 10] would give score 10 at the least, and rejecting the
answer would give the neutral 50). -/
theorem scale_out_of_range_counterexample :
    (analyze_responses [⟨"scale", "stress"⟩] [some (.num (-5))]).score = -50 ∧
    (analyze_responses [⟨"scale", "stress"⟩] [some (.num 1)]).score = 10 ∧
    (analyze_responses [⟨"scale", "stress"⟩] [none]).score = 50 := by
  refine ⟨?_, ?_, ?_⟩
  · rw [analyze_single_stress_scale]
    rw [show min (100 : ℚ) ((-5) * 10) = -50 by norm_num [min_def]]
    exact round1_neg_fifty
  · rw [analyze_single_stress_scale]
    rw [show min (100 : ℚ) (1 * 10) = 10 by norm_num [min_def]]
    exact round1_ten
  · norm_num [analyze_responses, analyzeBody, scoreLoop, questionStep,
      round1_fifty]

/-- C3 amended: the scorer converts a scale answer with `float()` and uses
the raw value in the contribution — numeric values are *not* clamped to
[1, 10]; only an unparsable string is "rejected", and then by aborting into
the global fallback result rather than per-question handling. -/
theorem scale_values_trusted (v : ℚ) :
    (analyze_responses [⟨"scale", "stress"⟩] [some (.num v)]).score =
      round1 (min 100 (v * 10)) ∧
    ∀ s : String, parseFloatQ s = none →
      analyze_responses [⟨"scale", "stress"⟩] [some (.str s)] = fallbackAnalysis := by
  refine ⟨analyze_single_stress_scale v, ?_⟩
  intro s hs
  simp [analyze_responses, analyzeBody, scoreLoop, questionStep, pyFloat, hs]

/-- Witness for `scale_values_trusted` at `v = -5` and the unparsable
answer "oops". -/
theorem scale_values_trusted_witness :
    (analyze_responses [⟨"scale", "stress"⟩] [some (.num (-5))]).score =
      round1 (min 100 ((-5) * 10)) ∧
    analyze_responses [⟨"scale", "stress"⟩] [some (.str "oops")] = fallbackAnalysis :=
  ⟨(scale_values_trusted (-5)).1, (scale_values_trusted (-5)).2 "oops" (by decide)⟩

theorem headD_eq_getD (rs : List (Option Answer)) :
    rs.headD none = rs.getD 0 none := by
  cases rs <;> rfl

theorem tail_getD (rs : List (Option Answer)) (i : ℕ) :
    rs.tail.getD i none = rs.getD (i + 1) none := by
  cases rs <;> rfl

/-- A question whose answer the loop body does not treat as an answered
scale question contributes 0 to `scale_count` (or raises). -/
theorem questionStep_no_scale (q : Question) (r : Option Answer)
    (h : q.type = "scale" → r = none) :
    questionStep q r = .error () ∨
      ∃ t fs, questionStep q r = .ok (t, 0, fs) := by
  by_cases hq : q.type = "scale"
  · rw [questionStep.eq_def, if_pos hq, h hq]
    exact Or.inr ⟨0, [], rfl⟩
  · by_cases ht : q.type = "text"
    · match r with
      | none =>
        exact Or.inr ⟨0, [], by simp [questionStep, hq, ht]⟩
      | some (.num v) =>
        by_cases hv : pyTruthy (.num v) = true
        · left
          simp [questionStep, hq, ht, hv, pyLower]
        · exact Or.inr ⟨0, [], by simp [questionStep, hq, ht, hv]⟩
      | some (.str s) =>
        by_cases hv : pyTruthy (.str s) = true
        · right
          refine ⟨(15 : ℚ) * (foundKeywords (lowerStr s)).length,
            (foundKeywords (lowerStr s)).map
              (fun k => "Mentioned feeling " ++ k), ?_⟩
          simp [questionStep, hq, ht, hv, pyLower]
        · exact Or.inr ⟨0, [], by simp [questionStep, hq, ht, hv]⟩
    · right
      refine ⟨0, [], ?_⟩
      rw [questionStep.eq_def, if_neg hq, if_neg ht]

/-- When no scale-type question has an answer, the loop either raises or
ends with `scale_count = 0`. -/
theorem scoreLoop_no_scale :
    ∀ (qs : List Question) (rs : List (Option Answer)),
      (∀ i, (hi : i < qs.length) → (qs.get ⟨i, hi⟩).type = "scale" →
        rs.getD i none = none) →
      scoreLoop qs rs = .error () ∨
        ∃ t fs, scoreLoop qs rs = .ok (t, 0, fs) := by
  intro qs
  induction qs with
  | nil => exact fun rs _ => Or.inr ⟨0, [], rfl⟩
  | cons q qs ih =>
    intro rs h
    have h0 : q.type = "scale" → rs.headD none = none := by
      intro hq
      rw [headD_eq_getD]
      exact h 0 (Nat.succ_pos _) hq
    have hrest := ih rs.tail (by
      intro i hi hq
      rw [tail_getD]
      exact h (i + 1) (by simpa using Nat.succ_lt_succ hi) hq)
    rcases questionStep_no_scale q (rs.headD none) h0 with he | ⟨t1, f1, h1⟩
    · left
      simp only [scoreLoop, he]
    · rcases hrest with he2 | ⟨t2, f2, h2⟩
      · left
        simp only [scoreLoop, h1, he2]
      · right
        refine ⟨t1 + t2, f1 ++ f2, ?_⟩
        simp only [scoreLoop, h1, h2, Nat.add_zero]

/-- C5: a submission in which no scale-type question carries an answer
always scores exactly 50 with urgency "medium" — either through the normal
path (`scale_count == 0` → neutral 50, and 50 lands in the medium tier) or
through the fallback result (also 50/"medium"). -/
theorem no_scale_answers_neutral (qs : List Question)
    (rs : List (Option Answer))
    (h : ∀ i, (hi : i < qs.length) → (qs.get ⟨i, hi⟩).type = "scale" →
      rs.getD i none = none) :
    (analyze_responses qs rs).score = 50 ∧
    (analyze_responses qs rs).urgency = "medium" := by
  rcases scoreLoop_no_scale qs rs h with he | ⟨t, fs, hok⟩
  · simp only [analyze_responses, analyzeBody, he]
    norm_num [fallbackAnalysis]
  · simp only [analyze_responses, analyzeBody, hok]
    norm_num [round1_fifty]

/-- Witness for `no_scale_answers_neutral`: one answered text question, one
unanswered scale question. -/
theorem no_scale_answers_neutral_witness :
    (analyze_responses [⟨"text", "general"⟩, ⟨"scale", "stress"⟩]
      [some (.str "all good")]).score = 50 ∧
    (analyze_responses [⟨"text", "general"⟩, ⟨"scale", "stress"⟩]
      [some (.str "all good")]).urgency = "medium" :=
  no_scale_answers_neutral _ _ (by decide)

/-- C6: the scorer is a total function — every call returns either the
normal analysis of the body or, when the body raises, exactly the safe
fallback result, whose shape is score 50.0, urgency "medium", one generic
concern, two generic recommendations (and the fixed generic summary). -/
theorem analyze_never_fails (qs : List Question) (rs : List (Option Answer)) :
    (analyzeBody qs rs = .error () → analyze_responses qs rs = fallbackAnalysis) ∧
    (∀ a, analyzeBody qs rs = .ok a → analyze_responses qs rs = a) ∧
    fallbackAnalysis.score = 50 ∧
    fallbackAnalysis.urgency = "medium" ∧
    fallbackAnalysis.concerns = ["Unable to complete full analysis"] ∧
    fallbackAnalysis.recommendations.length = 2 := by
  refine ⟨?_, ?_, rfl, rfl, rfl, rfl⟩
  · intro he
    simp [analyze_responses, he]
  · intro a ha
    simp [analyze_responses, ha]

/-- Witness for `analyze_never_fails` at two malformed submissions: a scale
question answered with the unparsable string "abc" (`float` raises
ValueError) and a text question answered with the number 5 (`.lower()`
raises AttributeError); both collapse to the fallback result. -/
theorem analyze_never_fails_witness :
    analyze_responses [⟨"scale", "stress"⟩] [some (.str "abc")] =
      fallbackAnalysis ∧
    analyze_responses [⟨"text", "general"⟩] [some (.num 5)] =
      fallbackAnalysis :=
  ⟨(analyze_never_fails [⟨"scale", "stress"⟩] [some (.str "abc")]).1 rfl,
   (analyze_never_fails [⟨"text", "general"⟩] [some (.num 5)]).1 rfl⟩

/-- Evaluation of one loop iteration on an answered, non-empty text
question: one concern string and one +15 bonus per lexicon phrase found in
the lower-cased answer. -/
theorem questionStep_text (c s : String) (hne : s ≠ "") :
    questionStep ⟨"text", c⟩ (some (.str s)) =
      .ok ((15 : ℚ) * (foundKeywords (lowerStr s)).length, 0,
        (foundKeywords (lowerStr s)).map fun k => "Mentioned feeling " ++ k) := by
  have htr : pyTruthy (.str s) = true := by
    simp [pyTruthy, bne_iff_ne, hne]
  rw [questionStep.eq_def,
    if_neg (show Question.type ⟨"text", c⟩ ≠ "scale" from
      fun hcontra => (by decide : ¬("text" = "scale")) hcontra),
    if_pos (show Question.type (⟨"text", c⟩ : Question) = "text" from rfl)]
  simp [htr, pyLower]

/-- C8: appending a non-empty text answer to any submission leaves the
scale count unchanged, adds exactly `15` to the pre-division total for each
lexicon phrase found in the lower-cased answer, and appends one
`"Mentioned feeling <phrase>"` concern per phrase, in lexicon order. -/
theorem text_answer_adds :
    ∀ (qs : List Question) (rs : List (Option Answer)) (t : ℚ) (n : ℕ)
      (fs : List String), rs.length = qs.length →
      scoreLoop qs rs = .ok (t, n, fs) →
      ∀ (c s : String), s ≠ "" →
      scoreLoop (qs ++ [⟨"text", c⟩]) (rs ++ [some (.str s)]) =
        .ok (t + 15 * ((foundKeywords (lowerStr s)).length : ℚ), n,
          fs ++ (foundKeywords (lowerStr s)).map
            fun k => "Mentioned feeling " ++ k) := by
  intro qs
  induction qs with
  | nil =>
    intro rs t n fs hlen hok c s hne
    have hrs : rs = [] := List.length_eq_zero.mp (by simpa using hlen)
    subst hrs
    simp only [scoreLoop, Except.ok.injEq, Prod.mk.injEq] at hok
    obtain ⟨ht, hn, hf⟩ := hok
    subst ht hn hf
    simp only [List.nil_append, scoreLoop, List.headD_cons, List.tail_cons,
      questionStep_text c s hne]
    simp
  | cons q qs ih =>
    intro rs t n fs hlen hok c s hne
    cases rs with
    | nil => simp at hlen
    | cons r rs2 =>
      have hlen2 : rs2.length = qs.length := by simpa using hlen
      simp only [scoreLoop, List.headD_cons, List.tail_cons] at hok
      cases hstep : questionStep q r with
      | error e => rw [hstep] at hok; cases hok
      | ok trip =>
        obtain ⟨t1, c1, f1⟩ := trip
        rw [hstep] at hok
        cases hrest : scoreLoop qs rs2 with
        | error e => rw [hrest] at hok; cases hok
        | ok trip2 =>
          obtain ⟨t2, c2, f2⟩ := trip2
          rw [hrest] at hok
          simp only [Except.ok.injEq, Prod.mk.injEq] at hok
          obtain ⟨ht, hn, hf⟩ := hok
          subst ht hn hf
          have hx := ih rs2 t2 c2 f2 hlen2 hrest c s hne
          simp only [List.cons_append, scoreLoop, List.headD_cons,
            List.tail_cons, List.append_eq, hstep]
          rw [hx]
          simp [add_assoc, List.append_assoc]

/-- Witness for `text_answer_adds`: the single text answer
"overwhelmed by the deadline" hits exactly the two lexicon phrases
"overwhelmed" and "deadline", so it contributes two concern entries and
`2 * 15 = 30` to the pre-division total. -/
theorem text_answer_adds_witness :
    scoreLoop [⟨"text", "general"⟩] [some (.str "overwhelmed by the deadline")] =
      .ok (0 + 15 * ((foundKeywords
          (lowerStr "overwhelmed by the deadline")).length : ℚ), 0,
        [] ++ (foundKeywords (lowerStr "overwhelmed by the deadline")).map
          (fun k => "Mentioned feeling " ++ k)) ∧
    foundKeywords (lowerStr "overwhelmed by the deadline") =
      ["overwhelmed", "deadline"] :=
  ⟨text_answer_adds [] [] 0 0 [] rfl rfl "general" "overwhelmed by the deadline"
      (by decide),
   by decide⟩

/-- C10: lexicon detection is substring containment on the lower-cased
answer — "tired" fires inside the longer word "retired" — and because the
loop iterates over the (duplicate-free) keyword list rather than over
occurrences, each phrase contributes at most one concern and one +15 bonus
per answer, however often it occurs. -/
theorem lexicon_substring_semantics :
    (∀ s : String, (foundKeywords s).Nodup) ∧
    containsSub "i am retired" "tired" = true ∧
    scoreLoop [⟨"text", "general"⟩] [some (.str "I am retired")] =
      .ok (15, 0, ["Mentioned feeling tired"]) ∧
    scoreLoop [⟨"text", "general"⟩]
        [some (.str "so tired and tired and tired")] =
      .ok (15, 0, ["Mentioned feeling tired"]) := by
  refine ⟨fun s => List.Nodup.filter _ (by decide), by decide, ?_, ?_⟩
  · have h := questionStep_text "general" "I am retired" (by decide)
    rw [show foundKeywords (lowerStr "I am retired") = ["tired"] from by decide]
      at h
    simp only [scoreLoop, List.headD_cons, List.tail_cons, h, List.map_cons,
      List.map_nil]
    norm_num
    all_goals decide
  · have h := questionStep_text "general" "so tired and tired and tired"
      (by decide)
    rw [show foundKeywords (lowerStr "so tired and tired and tired") =
      ["tired"] from by decide] at h
    simp only [scoreLoop, List.headD_cons, List.tail_cons, h, List.map_cons,
      List.map_nil]
    norm_num
    all_goals decide

theorem rnd_le_of_le (q : ℚ) (n : ℤ) (h : q ≤ (n : ℚ)) : rnd q ≤ n := by
  have hfl : (⌊q⌋ : ℚ) ≤ q := Int.floor_le q
  have hfn : ⌊q⌋ ≤ n := by
    have := Int.floor_le_floor h
    rwa [Int.floor_intCast] at this
  rw [rnd]
  split_ifs with h1 h2 h3
  · exact hfn
  · by_contra hc
    push_neg at hc
    have hn : (n : ℚ) ≤ (⌊q⌋ : ℚ) := by exact_mod_cast (by omega : n ≤ ⌊q⌋)
    linarith
  · exact hfn
  · by_contra hc
    push_neg at hc
    have hn : (n : ℚ) ≤ (⌊q⌋ : ℚ) := by exact_mod_cast (by omega : n ≤ ⌊q⌋)
    linarith

theorem le_rnd_of_le (q : ℚ) (n : ℤ) (h : (n : ℚ) ≤ q) : n ≤ rnd q := by
  have hfn : n ≤ ⌊q⌋ := Int.le_floor.mpr h
  rw [rnd]
  split_ifs <;> omega

theorem round1_nonneg (x : ℚ) (h : 0 ≤ x) : 0 ≤ round1 x := by
  have h0 : (0 : ℤ) ≤ rnd (10 * x) :=
    le_rnd_of_le (10 * x) 0 (by push_cast; linarith)
  have h0q : (0 : ℚ) ≤ (rnd (10 * x) : ℚ) := by exact_mod_cast h0
  rw [round1]
  positivity

theorem round1_le_100 (x : ℚ) (h : x ≤ 100) : round1 x ≤ 100 := by
  have h0 : rnd (10 * x) ≤ (1000 : ℤ) :=
    rnd_le_of_le (10 * x) 1000 (by push_cast; linarith)
  have h0q : (rnd (10 * x) : ℚ) ≤ 1000 := by exact_mod_cast h0
  rw [round1, div_le_iff₀ (by norm_num : (0 : ℚ) < 10)]
  linarith

/-- A submission is valid when every answered scale-type question parses to
a number in [1, 10]. -/
def validScaleAnswers (qs : List Question) (rs : List (Option Answer)) : Prop :=
  ∀ i, (hi : i < qs.length) → (qs.get ⟨i, hi⟩).type = "scale" →
    ∀ a, rs.getD i none = some a →
      ∃ v, pyFloat a = .ok v ∧ 1 ≤ v ∧ v ≤ 10

/-- When its scale answer (if any) is valid, one loop iteration raises or
contributes at least `10 * scale_count_increment` to the total. -/
theorem questionStep_bound (q : Question) (r : Option Answer)
    (h : q.type = "scale" → ∀ a, r = some a →
      ∃ v, pyFloat a = .ok v ∧ 1 ≤ v ∧ v ≤ 10) :
    questionStep q r = .error () ∨
      ∃ t c fs, questionStep q r = .ok (t, c, fs) ∧ 10 * (c : ℚ) ≤ t := by
  by_cases hq : q.type = "scale"
  · match r with
    | none =>
      right
      refine ⟨0, 0, [], ?_, by norm_num⟩
      rw [questionStep.eq_def, if_pos hq]
    | some a =>
      obtain ⟨v, hv, hv1, hv10⟩ := h hq a rfl
      right
      refine ⟨scaleContribution q.category v, 1, [], ?_, ?_⟩
      · rw [questionStep.eq_def, if_pos hq]
        simp only [hv]
      · rw [scaleContribution]
        split_ifs <;> push_cast <;> nlinarith
  · by_cases ht : q.type = "text"
    · match r with
      | none =>
        right
        refine ⟨0, 0, [], ?_, by norm_num⟩
        rw [questionStep.eq_def, if_neg hq, if_pos ht]
      | some (.num v) =>
        by_cases hv : pyTruthy (.num v) = true
        · left
          simp [questionStep, hq, ht, hv, pyLower]
        · right
          exact ⟨0, 0, [], by simp [questionStep, hq, ht, hv], by norm_num⟩
      | some (.str s) =>
        by_cases hv : pyTruthy (.str s) = true
        · right
          refine ⟨(15 : ℚ) * (foundKeywords (lowerStr s)).length, 0,
            (foundKeywords (lowerStr s)).map
              (fun k => "Mentioned feeling " ++ k),
            by simp [questionStep, hq, ht, hv, pyLower], ?_⟩
          have hlen0 : (0 : ℚ) ≤ ((foundKeywords (lowerStr s)).length : ℚ) :=
            Nat.cast_nonneg _
          push_cast
          linarith
        · right
          exact ⟨0, 0, [], by simp [questionStep, hq, ht, hv], by norm_num⟩
    · right
      refine ⟨0, 0, [], ?_, by norm_num⟩
      rw [questionStep.eq_def, if_neg hq, if_neg ht]

/-- On a valid submission the loop raises or ends with
`total >= 10 * scale_count`. -/
theorem scoreLoop_bound :
    ∀ (qs : List Question) (rs : List (Option Answer)),
      validScaleAnswers qs rs →
      scoreLoop qs rs = .error () ∨
        ∃ t c fs, scoreLoop qs rs = .ok (t, c, fs) ∧ 10 * (c : ℚ) ≤ t := by
  intro qs
  induction qs with
  | nil =>
    intro rs _
    exact Or.inr ⟨0, 0, [], rfl, by norm_num⟩
  | cons q qs ih =>
    intro rs h
    have h0 : q.type = "scale" → ∀ a, rs.headD none = some a →
        ∃ v, pyFloat a = .ok v ∧ 1 ≤ v ∧ v ≤ 10 := by
      intro hq a ha
      rw [headD_eq_getD] at ha
      exact h 0 (Nat.succ_pos _) hq a ha
    have hrest := ih rs.tail (by
      intro i hi hq a ha
      rw [tail_getD] at ha
      exact h (i + 1) (by simpa using Nat.succ_lt_succ hi) hq a ha)
    rcases questionStep_bound q (rs.headD none) h0 with he | ⟨t1, c1, f1, h1, b1⟩
    · left
      simp only [scoreLoop, he]
    · rcases hrest with he2 | ⟨t2, c2, f2, h2, b2⟩
      · left
        simp only [scoreLoop, h1, he2]
      · right
        refine ⟨t1 + t2, c1 + c2, f1 ++ f2, by simp only [scoreLoop, h1, h2], ?_⟩
        push_cast
        linarith

/-- C7: on a valid submission (every answered scale question parses to a
number in [1, 10]) the returned score lies in [0, 100]; and the scorer is
deterministic — it is a pure function, so identical inputs give identical
results. -/
theorem score_in_range (qs : List Question) (rs : List (Option Answer))
    (h : validScaleAnswers qs rs) :
    0 ≤ (analyze_responses qs rs).score ∧
    (analyze_responses qs rs).score ≤ 100 ∧
    ∀ (qs2 : List Question) (rs2 : List (Option Answer)),
      qs2 = qs → rs2 = rs →
      analyze_responses qs2 rs2 = analyze_responses qs rs := by
  have hdet : ∀ (qs2 : List Question) (rs2 : List (Option Answer)),
      qs2 = qs → rs2 = rs →
      analyze_responses qs2 rs2 = analyze_responses qs rs := by
    intro qs2 rs2 hq hr
    rw [hq, hr]
  rcases scoreLoop_bound qs rs h with he | ⟨t, c, fs, hok, hb⟩
  · refine ⟨?_, ?_, hdet⟩ <;>
      simp only [analyze_responses, analyzeBody, he] <;>
      norm_num [fallbackAnalysis]
  · rcases Nat.eq_zero_or_pos c with hc | hc
    · subst hc
      refine ⟨?_, ?_, hdet⟩ <;>
        simp only [analyze_responses, analyzeBody, hok] <;>
        norm_num [round1_fifty]
    · have hcq : (0 : ℚ) < (c : ℚ) := by exact_mod_cast hc
      have hdiv : (10 : ℚ) ≤ t / (c : ℚ) := by
        rw [le_div_iff₀ hcq]
        linarith
      have hmin1 : (0 : ℚ) ≤ min 100 (t / (c : ℚ)) :=
        le_min (by norm_num) (by linarith)
      have hmin2 : min 100 (t / (c : ℚ)) ≤ 100 := min_le_left _ _
      refine ⟨?_, ?_, hdet⟩
      · simp only [analyze_responses, analyzeBody, hok]
        rw [if_pos hc]
        exact round1_nonneg _ hmin1
      · simp only [analyze_responses, analyzeBody, hok]
        rw [if_pos hc]
        exact round1_le_100 _ hmin2

/-- Witness for `score_in_range` at the single in-range submission
`[scale/stress ↦ 9]` (score 90). -/
theorem score_in_range_witness :
    0 ≤ (analyze_responses [⟨"scale", "stress"⟩] [some (.num 9)]).score ∧
    (analyze_responses [⟨"scale", "stress"⟩] [some (.num 9)]).score ≤ 100 := by
  have hv : validScaleAnswers [⟨"scale", "stress"⟩] [some (.num 9)] := by
    intro i hi hq a ha
    simp only [List.length_cons, List.length_nil] at hi
    obtain rfl : i = 0 := by omega
    simp only [List.getD, List.getElem?_cons_zero, Option.getD_some] at ha
    cases ha
    exact ⟨9, rfl, by norm_num, by norm_num⟩
  exact ⟨(score_in_range _ _ hv).1, (score_in_range _ _ hv).2.1⟩
